import Mathlib

/-!
Verification of the inspector-metrics reporting pipeline.

Shallow embedding of the repository's reporter code:

* `CsvMetricReporter` (src/unnamed/part_001): the dedup/timeout policy
  (`hasChanged`), per-tick reporting (`reportMetrics`,
  `reportMetricRegistry`), tag merging (`buildTags`), header construction
  (`buildHeaders`) and the `start`/`stop` timer lifecycle.
* `LoggerReporter` (src/packages/inspector-metrics/lib/metrics/reporter/
  logger-reporter.ts): the per-variant formatting functions and their
  not-a-number filtering.
* `InterprocessReportMessage` (src/packages/inspector-metrics/lib/metrics/
  reporter/interprocess-report-message.ts): the wire shape.
* `DefaultSender` (src/packages/inspector-influx/lib/metrics/
  DefaultSender.ts): ready-state and database creation on init.

JavaScript numbers used as timestamps and metric values are modelled as
`Int` (all the code under scrutiny uses integral millisecond timestamps
and ints from `getCount`); a value that can be not-a-number is modelled
by `JsNum`.  JS `Map`s and plain objects holding tags are modelled as
insertion-ordered association lists (`TagMap`), with `jsSet` mirroring
object key assignment (replace in place, else append).
-/

/-- A JS `Map<string, string>` or plain tag object, as its
insertion-ordered list of key/value entries. -/
abbrev TagMap := List (String × String)

/-- JS object key assignment `obj[k] = v`: replaces the first (for unique
keys: the only) entry with key `k` in place, otherwise appends the new
entry at the end, preserving key insertion order. -/
def jsSet : TagMap → String → String → TagMap
  | [], k, v => [(k, v)]
  | p :: rest, k, v => if p.1 = k then (k, v) :: rest else p :: jsSet rest k v

/-- JS object property read `obj[k]`: the first entry with key `k`. -/
def objGet : TagMap → String → Option String
  | [], _ => none
  | p :: rest, k => if p.1 = k then some p.2 else objGet rest k

/-- The value of the last entry with key `k`, i.e. the value the key ends
up with after all entries of the list are assigned in order into a fresh
object. -/
def findLast : TagMap → String → Option String
  | [], _ => none
  | p :: rest, k =>
    match findLast rest k with
    | some v => some v
    | none => if p.1 = k then some p.2 else none

/-- The keys of a JS object in insertion order (`Object.keys`). -/
def objKeys (m : TagMap) : List String := m.map (fun p => p.1)

/-- Assign every entry of `l` (in order) into the object `base`. -/
def jsSetFold (base : TagMap) (l : TagMap) : TagMap :=
  l.foldl (fun acc p => jsSet acc p.1 p.2) base

/-- A JS number that may be not-a-number; metric values flow through
`isNaN` checks in the logger reporter. -/
inductive JsNum
  | nan
  | val (n : Int)
deriving DecidableEq

/-- JS `isNaN` on a `JsNum`. -/
def JsNum.isNaN : JsNum → Bool
  | JsNum.nan => true
  | JsNum.val _ => false

/-- JS number-to-string coercion as used in template literals. -/
def JsNum.display : JsNum → String
  | JsNum.nan => "NaN"
  | JsNum.val n => toString n

/-! ## CsvMetricReporter: dedup/timeout state (src/unnamed/part_001) -/

/-- Source `MetricEntry` (part_001 lines 35-50): timestamp of the latest
report and the value recorded for the metric. -/
structure MetricEntry where
  lastReport : Int
  lastValue : Int
deriving DecidableEq

/-- The reporter's `metricStates: Map<number, MetricEntry>`, as a partial
map from metric id to entry. -/
def MetricStates : Type := Int → Option MetricEntry

/-- The initial `new Map()`. -/
def MetricStates.empty : MetricStates := fun _ => none

/-- `this.metricStates.set(metricId, metricEntry)`. -/
def MetricStates.set (s : MetricStates) (metricId : Int) (e : MetricEntry) :
    MetricStates :=
  fun k => if k = metricId then some e else s k

/-- `CsvMetricReporter.hasChanged` (part_001 lines 322-340).  The source
initialises `changed = true` and a fresh entry `{lastReport: 0, lastValue}`;
when the id is tracked, it sets `changed = lastValue !== entry.lastValue`
and, if that is false, `changed = entry.lastReport + minReportingTimeout <
date.getTime()` (the two sequential assignments are the short-circuit
disjunction below).  When `changed`, `entry.lastReport` is overwritten with
`date.getTime()` (so the fresh entry's `0` is always overwritten before it
is stored); `entry.lastValue` is never reassigned.  The updated entry is
stored back into the map and `changed` is returned. -/
def CsvMetricReporter.hasChanged (minReportingTimeout : Int)
    (states : MetricStates) (metricId : Int) (lastValue : Int)
    (nowMs : Int) : Bool × MetricStates :=
  match states metricId with
  | none =>
      (true, states.set metricId { lastReport := nowMs, lastValue := lastValue })
  | some metricEntry =>
      let changed : Bool :=
        (metricEntry.lastValue != lastValue)
          || decide (metricEntry.lastReport + minReportingTimeout < nowMs)
      if changed then
        (true, states.set metricId { metricEntry with lastReport := nowMs })
      else
        (false, states.set metricId metricEntry)

/-! ## CsvMetricReporter: registry data and per-tick reporting -/

/-- What the reporter observes of one metric instance at tick time:
`(metric as any).id` (possibly undefined), the number returned by the
tick's `lastModifiedFunction` (`getCount`/`getValue`), the instrument's
own tags (`getTags()`), and its metadata keys (`getMetadataMap().keys()`).
The numeric value is a plain `Int` because `hasChanged` compares it with
`!==`. -/
structure MetricInfo where
  id : Option Int
  value : Int
  tags : TagMap := []
  metadataKeys : List String := []
deriving DecidableEq

/-- JS truthiness of `metricId` in `if (metricId)` (part_001 line 309):
`undefined` and `0` are falsy. -/
def jsTruthyId : Option Int → Bool
  | none => false
  | some n => n != 0

/-- `CsvMetricReporter.reportMetrics` (part_001 lines 299-320), restricted
to its effect on `metricStates`: for each metric, when its id is truthy the
dedup decision (and entry update) is made by `hasChanged`; otherwise
`changed` stays `true` without touching the states.  The subsequent
`reportFunction` calls (`reportCounter` etc., lines 342-365) are all `TODO`
stubs returning `[]`, so `rows.length > 0` never holds and `writeRows` is
never reached: the metric-state map is the tick's only state effect. -/
def CsvMetricReporter.reportMetrics (minReportingTimeout : Int)
    (metrics : List MetricInfo) (nowMs : Int) (states : MetricStates) :
    MetricStates :=
  metrics.foldl
    (fun s metric =>
      if jsTruthyId metric.id then
        (CsvMetricReporter.hasChanged minReportingTimeout s (metric.id.getD 0)
          metric.value nowMs).2
      else s)
    states

/-- One `MetricRegistry` as the reporter sees it: the six per-variant
instrument lists (part_001 lines 279-296). -/
structure CsvRegistry where
  monotoneCounters : List MetricInfo := []
  counters : List MetricInfo := []
  gauges : List MetricInfo := []
  histograms : List MetricInfo := []
  meters : List MetricInfo := []
  timers : List MetricInfo := []
deriving DecidableEq

/-- All instruments of a registry in the fixed reporting order
monotone-counter, counter, gauge, histogram, meter, timer. -/
def CsvRegistry.allMetrics (r : CsvRegistry) : List MetricInfo :=
  r.monotoneCounters ++ r.counters ++ r.gauges ++ r.histograms ++ r.meters
    ++ r.timers

/-- `registry.getMetricList()` as used by `buildHeaders`: all instruments
of the registry. -/
def CsvRegistry.metricList (r : CsvRegistry) : List MetricInfo :=
  r.allMetrics

/-- `CsvMetricReporter.reportMetricRegistry` (part_001 lines 276-297):
captures `now` once (`new Date(this.clock.time().milliseconds)`, passed in
here as the sampled millisecond value `clockMs`) and then reports the six
instrument lists, each against that same captured `now`. -/
def CsvMetricReporter.reportMetricRegistry (minReportingTimeout : Int)
    (clockMs : Int) (registry : CsvRegistry) (states : MetricStates) :
    MetricStates :=
  let nowMs := clockMs
  let s1 := CsvMetricReporter.reportMetrics minReportingTimeout
    registry.monotoneCounters nowMs states
  let s2 := CsvMetricReporter.reportMetrics minReportingTimeout
    registry.counters nowMs s1
  let s3 := CsvMetricReporter.reportMetrics minReportingTimeout
    registry.gauges nowMs s2
  let s4 := CsvMetricReporter.reportMetrics minReportingTimeout
    registry.histograms nowMs s3
  let s5 := CsvMetricReporter.reportMetrics minReportingTimeout
    registry.meters nowMs s4
  CsvMetricReporter.reportMetrics minReportingTimeout registry.timers nowMs s5

/-- The registry loop of `CsvMetricReporter.report` (part_001 line 209):
`this.metricRegistries.forEach((registry) => this.reportMetricRegistry(registry))`.
Every `reportMetricRegistry` call samples the clock anew (line 277), so
the registry at position `i` of the tick is evaluated against the clock's
i-th sample `clock i`. -/
def CsvMetricReporter.reportGo (minReportingTimeout : Int)
    (clock : Nat → Int) :
    Nat → List CsvRegistry → MetricStates → MetricStates
  | _, [], states => states
  | i, registry :: rest, states =>
      CsvMetricReporter.reportGo minReportingTimeout clock (i + 1) rest
        (CsvMetricReporter.reportMetricRegistry minReportingTimeout (clock i)
          registry states)

/-- `CsvMetricReporter.report` (part_001 lines 203-211), restricted to its
metric-state effect: when registries are registered, the sink's
`dir`/`filename`/`writer.init` I/O runs and then every registry is
reported in order by `reportMetricRegistry`.  `clock` is the stream of
millisecond values that `this.clock.time().milliseconds` returns on the
tick's successive clock reads — one read per registry, not one per
tick. -/
def CsvMetricReporter.report (minReportingTimeout : Int)
    (clock : Nat → Int) (registries : List CsvRegistry)
    (states : MetricStates) : MetricStates :=
  CsvMetricReporter.reportGo minReportingTimeout clock 0 registries states

/-! ## CsvMetricReporter: options, construction, tags -/

/-- `TimeUnit` from inspector-metrics as its nanoseconds-per-unit factor;
`convertTo(value, unit)` scales between units (the source divides doubles,
here exact for the units in play). -/
structure TimeUnit where
  nanosecondsPerUnit : Int
deriving DecidableEq

/-- `unit.convertTo(value, target)`. -/
def TimeUnit.convertTo (u : TimeUnit) (value : Int) (target : TimeUnit) :
    Int :=
  value * u.nanosecondsPerUnit / target.nanosecondsPerUnit

/-- The `MILLISECOND` time unit. -/
def MILLISECOND : TimeUnit := { nanosecondsPerUnit := 1000000 }

/-- Source `ExportMode` (part_001 lines 56-59). -/
inductive ExportMode
  | ALL_IN_ONE_COLUMN
  | EACH_IN_OWN_COLUMN
deriving DecidableEq

/-- Source `ColumnType` (part_001 line 52). -/
inductive ColumnType
  | date
  | name
  | field
  | group
  | description
  | value
  | tags
  | type
  | metadata
deriving DecidableEq

/-- The string the source pushes for a column type when it is exported as
a single column (`headers.push(columnType)`). -/
def ColumnType.columnName : ColumnType → String
  | ColumnType.date => "date"
  | ColumnType.name => "name"
  | ColumnType.field => "field"
  | ColumnType.group => "group"
  | ColumnType.description => "description"
  | ColumnType.value => "value"
  | ColumnType.tags => "tags"
  | ColumnType.type => "type"
  | ColumnType.metadata => "metadata"

/-- `CsvMetricReporterOptions` (part_001 lines 66-137) with the source's
defaults.  The filesystem-facing members (`writer`, `filename`, `dir`,
`encoding`) perform I/O in the excluded sink and do not influence the
reporting logic modelled here; the async `tagFilter`/`metadataFilter`
(called with a `null` metric and value from `buildHeaders`) are modelled
as boolean predicates on the tag/metadata name. -/
structure CsvMetricReporterOptions where
  interval : Int := 1000
  unit : TimeUnit := MILLISECOND
  writeHeaders : Bool := true
  useSingleQuotes : Bool := false
  tagExportMode : ExportMode := ExportMode.ALL_IN_ONE_COLUMN
  metadataExportMode : ExportMode := ExportMode.ALL_IN_ONE_COLUMN
  delimiter : String := ","
  tagColumnPrefixStr : String := "tag_"
  metadataColumnPrefixStr : String := "meta_"
  columns : List ColumnType := []
  tagFilter : String → Bool := fun _ => true
  metadataFilter : String → Bool := fun _ => true

/-- The mutable fields of a `CsvMetricReporter` instance.  `tags` is an
`Option` because the field is only ever assigned by `setTags`; `timer`
holds the id of the armed interval timer, if any; `metricRegistries`
belongs to the `MetricReporter` base class and is filled externally.  The
`clock` collaborator is modelled by passing the sampled millisecond value
into the tick functions. -/
structure CsvReporterState where
  options : CsvMetricReporterOptions
  tags : Option TagMap := none
  minReportingTimeout : Int := 1
  timer : Option Nat := none
  metricStates : MetricStates := MetricStates.empty
  header : Option (List String) := none
  metricRegistries : List CsvRegistry := []

/-- The `CsvMetricReporter` constructor (part_001 lines 166-179).  Its doc
comment declares `minReportingTimeout` a "timeout in minutes" with default
`1`.  The body assigns `options`, `clock`, `minReportingTimeout` and
`scheduler` — the line `this.tags = tags;` is commented out in the source,
so the `tags` parameter is dropped and the field stays undefined. -/
def CsvMetricReporter.construct (options : CsvMetricReporterOptions)
    (_tagsParam : TagMap := []) (minReportingTimeout : Int := 1) :
    CsvReporterState :=
  { options := options
    tags := none
    minReportingTimeout := minReportingTimeout
    timer := none
    metricStates := MetricStates.empty
    header := none
    metricRegistries := [] }

/-- `CsvMetricReporter.getTags` (part_001 lines 181-183). -/
def CsvMetricReporter.getTags (st : CsvReporterState) : Option TagMap :=
  st.tags

/-- `CsvMetricReporter.setTags` (part_001 lines 185-187). -/
def CsvMetricReporter.setTags (st : CsvReporterState) (tags : TagMap) :
    CsvReporterState :=
  { st with tags := some tags }

/-- The object built by `buildTags` (part_001 lines 373-378) when
`this.tags` holds `commonTags`: start from `{}`, assign every reporter
tag, then assign every instrument tag (overwriting on key collision). -/
def buildTagsObj (commonTags instrumentTags : TagMap) : TagMap :=
  jsSetFold (jsSetFold [] commonTags) instrumentTags

/-- `CsvMetricReporter.buildTags` on the instance state: reading
`this.tags.forEach` faults with a TypeError when `setTags` was never
called (the field is undefined), otherwise merges as `buildTagsObj`. -/
def CsvMetricReporter.buildTags (st : CsvReporterState)
    (instrumentTags : TagMap) : Except String TagMap :=
  match st.tags with
  | none => Except.error ("TypeError: this.tags is undefined")
  | some commonTags => Except.ok (buildTagsObj commonTags instrumentTags)

/-! ## CsvMetricReporter: header construction and timer lifecycle -/

/-- JS `Set` insertion: append if not yet present. -/
def dedupAppend (acc : List String) (x : String) : List String :=
  if acc.contains x then acc else acc ++ [x]

/-- The contents of a JS `Set` filled from `l` in order, iterated in
insertion order. -/
def insertionOrderedSet (l : List String) : List String :=
  l.foldl dedupAppend []

/-- The metadata header columns of `buildHeaders` in
`EACH_IN_OWN_COLUMN` mode (part_001 lines 221-242): collect every
metadata name of every metric of every registry into a `Set`, keep the
names passing `metadataFilter`, and push them prefixed with the metadata
column prefix. -/
def CsvMetricReporter.metadataHeaderNames
    (opts : CsvMetricReporterOptions) (registries : List CsvRegistry) :
    List String :=
  let names := insertionOrderedSet
    ((registries.map (fun r =>
      (r.metricList.map (fun m => m.metadataKeys)).flatten)).flatten)
  (names.filter opts.metadataFilter).map
    (fun n => opts.metadataColumnPrefixStr ++ n)

/-- The tag header columns of `buildHeaders` in `EACH_IN_OWN_COLUMN` mode
(part_001 lines 248-266): iterate `this.tags` (faulting when the field was
never set), then the keys of `buildTags(metric)` for every metric of every
registry, into a `Set`; keep the tags passing `tagFilter` and push them
prefixed with the tag column prefix. -/
def CsvMetricReporter.tagHeaderNames (opts : CsvMetricReporterOptions)
    (reporterTags : Option TagMap) (registries : List CsvRegistry) :
    Except String (List String) :=
  match reporterTags with
  | none => Except.error ("TypeError: this.tags is undefined")
  | some commonTags =>
      let collected := insertionOrderedSet
        (objKeys commonTags ++
          ((registries.map (fun r =>
            (r.metricList.map (fun m =>
              objKeys (buildTagsObj commonTags m.tags))).flatten)).flatten))
      Except.ok ((collected.filter opts.tagFilter).map
        (fun n => opts.tagColumnPrefixStr ++ n))

/-- The headers contributed by one configured column (the loop body of
`buildHeaders`, part_001 lines 216-271): `metadata` and `tags` expand
according to their export mode, any other column type pushes its own
name. -/
def CsvMetricReporter.headerFieldsFor (st : CsvReporterState)
    (c : ColumnType) : Except String (List String) :=
  match c with
  | ColumnType.metadata =>
      match st.options.metadataExportMode with
      | ExportMode.ALL_IN_ONE_COLUMN =>
          Except.ok [ColumnType.columnName ColumnType.metadata]
      | ExportMode.EACH_IN_OWN_COLUMN =>
          Except.ok (CsvMetricReporter.metadataHeaderNames st.options
            st.metricRegistries)
  | ColumnType.tags =>
      match st.options.tagExportMode with
      | ExportMode.ALL_IN_ONE_COLUMN =>
          Except.ok [ColumnType.columnName ColumnType.tags]
      | ExportMode.EACH_IN_OWN_COLUMN =>
          CsvMetricReporter.tagHeaderNames st.options st.tags
            st.metricRegistries
  | other => Except.ok [other.columnName]

/-- The loop of `buildHeaders` over `this.options.columns`. -/
def CsvMetricReporter.buildHeadersGo (st : CsvReporterState) :
    List ColumnType → Except String (List String)
  | [] => Except.ok []
  | c :: rest => do
      let h ← CsvMetricReporter.headerFieldsFor st c
      let t ← CsvMetricReporter.buildHeadersGo st rest
      pure (h ++ t)

/-- `CsvMetricReporter.buildHeaders` (part_001 lines 213-274). -/
def CsvMetricReporter.buildHeaders (st : CsvReporterState) :
    Except String (List String) :=
  CsvMetricReporter.buildHeadersGo st st.options.columns

/-- One armed `setInterval` timer of the Node runtime. -/
structure ArmedTimer where
  timerId : Nat
  intervalMs : Int
  unreffed : Bool
deriving DecidableEq

/-- The Node timer runtime: the recurring timers currently armed, plus a
fresh-id counter.  An armed interval timer fires its callback every
`intervalMs` until it is cleared; `unref` does not clear it. -/
structure SchedWorld where
  armed : List ArmedTimer := []
  nextId : Nat := 0
deriving DecidableEq

/-- `setInterval(callback, interval)`: arms a fresh recurring timer and
returns its handle. -/
def SchedWorld.setIntervalFresh (w : SchedWorld) (intervalMs : Int) :
    Nat × SchedWorld :=
  (w.nextId,
    { armed :=
        w.armed ++ [{ timerId := w.nextId, intervalMs := intervalMs, unreffed := false }],
      nextId := w.nextId + 1 })

/-- `timer.unref()`: marks the timer as not keeping the event loop alive.
The timer stays armed — unref does not cancel the interval, so it keeps
firing ticks while the process runs. -/
def SchedWorld.unrefTimer (w : SchedWorld) (tid : Nat) : SchedWorld :=
  { w with armed :=
      w.armed.map (fun a =>
        if a.timerId = tid then { a with unreffed := true } else a) }

/-- Whether any recurring timer will keep firing ticks (any timer still
armed — unreffed or not — fires while the process is alive). -/
def SchedWorld.firesFutureTicks (w : SchedWorld) : Bool :=
  !w.armed.isEmpty

/-- `CsvMetricReporter.start` (part_001 lines 189-195): convert the
configured interval to milliseconds, build the header when at least one
registry is registered (a header-construction fault rejects the returned
promise before any timer is armed), then arm a fresh interval timer via
the scheduler and store its handle in `this.timer` — unconditionally, on
every call. -/
def CsvMetricReporter.start (st : CsvReporterState) (w : SchedWorld) :
    Except String (CsvReporterState × SchedWorld) :=
  let intervalMs := st.options.unit.convertTo st.options.interval MILLISECOND
  match st.metricRegistries with
  | [] =>
      let armRes := w.setIntervalFresh intervalMs
      Except.ok ({ st with timer := some armRes.1 }, armRes.2)
  | _ :: _ =>
      match CsvMetricReporter.buildHeaders st with
      | Except.error e => Except.error e
      | Except.ok hdr =>
          let armRes := w.setIntervalFresh intervalMs
          Except.ok
            ({ st with header := some hdr, timer := some armRes.1 }, armRes.2)

/-- `CsvMetricReporter.stop` (part_001 lines 197-201): when a timer handle
was stored, call `unref()` on it; the instance state is left as is (the
handle is not cleared and the interval is not cancelled). -/
def CsvMetricReporter.stop (st : CsvReporterState) (w : SchedWorld) :
    SchedWorld :=
  match st.timer with
  | none => w
  | some tid => w.unrefTimer tid

/-! ## LoggerReporter (logger-reporter.ts) -/

/-- The log metadata object attached to each log line (`this.logMetadata`
extended with `measurement`, `measurement_type`, `timestamp`, and per
metric `group` and `tags`; logger-reporter.ts lines 149-153, 188-192,
243-245). -/
structure LogMetadata where
  measurement : String := ""
  measurementType : String := ""
  timestamp : Int := 0
  group : String := ""
  tags : TagMap := []
deriving DecidableEq

/-- Source `LogLine` (logger-reporter.ts lines 21-36). -/
structure LogLine where
  message : String
  metadata : LogMetadata
deriving DecidableEq

/-- The reporting context handed to the formatting functions
(logger-reporter.ts lines 45-53, 186-200): the tick date and the common
log metadata. -/
structure LoggerCtx where
  date : Int
  logMetadata : LogMetadata
deriving DecidableEq

/-- A `Counter`/`MonotoneCounter` as `reportCounter` observes it. -/
structure LoggerCounterModel where
  name : String
  group : String
  count : JsNum
  tags : TagMap := []
deriving DecidableEq

/-- A `Gauge` as `reportGauge` observes it. -/
structure LoggerGaugeModel where
  name : String
  group : String
  value : JsNum
  tags : TagMap := []
deriving DecidableEq

/-- `LoggerReporter.reportCounter` (logger-reporter.ts lines 239-252):
when `counter.getCount()` is not-a-number the function returns `null`
(no log line); otherwise it fills the context metadata and builds the
message.  The base-class `this.buildTags(ctx.registry, counter)` is not
under src; Modelled from the spec tag-resolution rule, it merges the
reporter-level common tags with the instrument's own tags, instrument
tags winning (`buildTagsObj`). -/
def LoggerReporter.reportCounter (commonTags : TagMap)
    (counter : LoggerCounterModel) (ctx : LoggerCtx) : Option LogLine :=
  if !counter.count.isNaN then
    some
      { message :=
          toString ctx.date ++ " - counter " ++ counter.name ++ ": "
            ++ counter.count.display,
        metadata :=
          { ctx.logMetadata with
              measurement := counter.name,
              group := counter.group,
              tags := buildTagsObj commonTags counter.tags } }
  else none

/-- `LoggerReporter.reportGauge` (logger-reporter.ts lines 269-281):
`null` when `gauge.getValue()` is not-a-number, a log line otherwise. -/
def LoggerReporter.reportGauge (commonTags : TagMap)
    (gauge : LoggerGaugeModel) (ctx : LoggerCtx) : Option LogLine :=
  if !gauge.value.isNaN then
    some
      { message :=
          toString ctx.date ++ " - gauge " ++ gauge.name ++ ": "
            ++ gauge.value.display,
        metadata :=
          { ctx.logMetadata with
              measurement := gauge.name,
              group := gauge.group,
              tags := buildTagsObj commonTags gauge.tags } }
  else none

/-- Modelled from the spec: the `ScheduledMetricReporter` base loop (not
under src; spec 4.5 steps 3-4: "Skip reporting (treat as filtered, not as
a failure) any instrument whose numeric value is not-a-number") collects,
for each instrument, the formatting function's result only when one was
produced; a `null` result is skipped and the remaining instruments are
still processed — the tick never fails on it. -/
def collectCounterResults (commonTags : TagMap) (ctx : LoggerCtx)
    (metrics : List LoggerCounterModel) :
    List (LoggerCounterModel × LogLine) :=
  metrics.filterMap (fun m =>
    (LoggerReporter.reportCounter commonTags m ctx).map (fun r => (m, r)))

/-! ## InterprocessReportMessage (interprocess-report-message.ts) -/

/-- `ReportingResult` as imported by interprocess-report-message.ts (its
defining file is not under src; Modelled from the spec: a per-type list
element pairs a serializable metric with its formatted result). -/
structure ReportingResult (M T : Type) where
  metric : M
  result : T
deriving DecidableEq

/-- The `metrics` member of the wire shape: exactly the six per-variant
result lists (interprocess-report-message.ts lines 50-57). -/
structure InterprocessReportMetrics (M T : Type) where
  counters : List (ReportingResult M T)
  gauges : List (ReportingResult M T)
  histograms : List (ReportingResult M T)
  meters : List (ReportingResult M T)
  monotoneCounters : List (ReportingResult M T)
  timers : List (ReportingResult M T)
deriving DecidableEq

/-- `InterprocessReportMessage` (interprocess-report-message.ts lines
15-72): reporting context, date, registry tags, the six per-variant
result lists, the target reporter type and the message type tag.  `Ctx`
and `Dt` abstract `OverallReportContext` and `Date`, whose definitions
are not under src. -/
structure InterprocessReportMessage (Ctx Dt M T : Type) where
  ctx : Ctx
  date : Dt
  tags : TagMap
  metrics : InterprocessReportMetrics M T
  targetReporterType : String
  type : String

/-- Modelled from the spec: "`type` distinguishes this message from
unrelated inter-process traffic; consumers must ignore messages with a
different `type`" (spec 6).  A consumer expecting `expectedType` accepts
the message only when its type tag matches. -/
def acceptReportMessage {Ctx Dt M T : Type} (expectedType : String)
    (m : InterprocessReportMessage Ctx Dt M T) :
    Option (InterprocessReportMessage Ctx Dt M T) :=
  if m.type = expectedType then some m else none

/-! ## DefaultSender (inspector-influx/lib/metrics/DefaultSender.ts) -/

/-- The influx client configuration, reduced to the member `init` reads. -/
structure InfluxConfig where
  database : String
deriving DecidableEq

/-- `DefaultSender` instance state: configuration, write precision and the
ready flag (initialised `false`, DefaultSender.ts line 38). -/
structure DefaultSender where
  config : InfluxConfig
  precision : String
  ready : Bool
deriving DecidableEq

/-- The `DefaultSender` constructor (DefaultSender.ts lines 55-59). -/
def DefaultSender.construct (config : InfluxConfig)
    (precision : String := "s") : DefaultSender :=
  { config := config, precision := precision, ready := false }

/-- `db.getDatabaseNames()` resolves with the server's database name list;
`localeCompare(x) === 0` is modelled as string equality. -/
def dbNameListed (names : List String) (database : String) : Bool :=
  names.any (fun v => v = database)

/-- `DefaultSender.init` (DefaultSender.ts lines 66-79) against a server
holding the database list `serverDbs`: when the configured database name
is not among the returned names, `createDatabase` is called (modelled as
appending the name to the server's list); an already-listed database is
left as is.  Afterwards `this.ready = true`.  (The `result instanceof
String` branch of the source cannot fire for the `string[]` the client
API resolves with.) -/
def DefaultSender.init (s : DefaultSender) (serverDbs : List String) :
    DefaultSender × List String :=
  let database := s.config.database
  let serverDbs' :=
    if dbNameListed serverDbs database then serverDbs
    else serverDbs ++ [database]
  ({ s with ready := true }, serverDbs')

/-- `DefaultSender.isReady` (DefaultSender.ts lines 87-89). -/
def DefaultSender.isReady (s : DefaultSender) : Bool :=
  s.ready

/-! ## Lemmas about JS object tag merging -/

/-- Reading an object after a key assignment: the assigned key yields the
new value, every other key is unaffected. -/
theorem objGet_jsSet (m : TagMap) (k v k' : String) :
    objGet (jsSet m k v) k' = if k' = k then some v else objGet m k' := by
  induction m with
  | nil =>
      by_cases h : k' = k
      · simp [jsSet, objGet, h]
      · have hk : ¬(k = k') := fun hh => h (Eq.symm hh)
        simp [jsSet, objGet, h, hk]
  | cons p rest ih =>
      by_cases hp : p.1 = k
      · by_cases h : k' = k
        · simp [jsSet, objGet, hp, h]
        · have hk : ¬(k = k') := fun hh => h (Eq.symm hh)
          have hpk : ¬(p.1 = k') := fun hh => h (Eq.symm (hp ▸ hh))
          simp [jsSet, objGet, hp, hk, hpk, h]
      · by_cases h : k' = k
        · have hpk : ¬(p.1 = k') := fun hh => hp (hh.trans h)
          have := ih
          rw [h] at this
          simp [jsSet, objGet, hp, h, hpk, this]
        · simp [jsSet, objGet, hp, h, ih]

/-- Reading an object after assigning a whole entry list: the last entry
for the key wins, and keys the list does not mention keep their base
value. -/
theorem objGet_jsSetFold (l : TagMap) (base : TagMap) (k : String) :
    objGet (jsSetFold base l) k =
      match findLast l k with
      | some v => some v
      | none => objGet base k := by
  induction l generalizing base with
  | nil => rfl
  | cons p rest ih =>
      have hstep : jsSetFold base (p :: rest) = jsSetFold (jsSet base p.1 p.2) rest := rfl
      have hcons : findLast (p :: rest) k =
          match findLast rest k with
          | some v => some v
          | none => if p.1 = k then some p.2 else none := rfl
      rw [hstep, ih, hcons]
      cases hf : findLast rest k with
      | some v => rfl
      | none =>
          rw [objGet_jsSet]
          by_cases hp : p.1 = k
          · subst hp
            simp
          · have hk : ¬(k = p.1) := fun hh => hp (Eq.symm hh)
            simp [hp, hk]

/-- Reading the merged tag object: the instrument-level binding wins and
the reporter-level binding is the fallback. -/
theorem objGet_buildTagsObj (commonTags instrumentTags : TagMap)
    (k : String) :
    objGet (buildTagsObj commonTags instrumentTags) k =
      (findLast instrumentTags k).or (findLast commonTags k) := by
  unfold buildTagsObj
  rw [objGet_jsSetFold, objGet_jsSetFold]
  cases findLast instrumentTags k with
  | some v => simp [Option.or]
  | none =>
      cases findLast commonTags k with
      | some v => simp [Option.or]
      | none => simp [Option.or, objGet]

/-! ## Claim theorems: tags -/

/-- C4: for every instrument and every reporter whose common tags are set,
`buildTags` succeeds with the merged object, and for every key the
reported binding is the instrument-level one when the instrument carries
the key, falling back to the reporter-level binding otherwise — the union
of the two tag sets with instrument-level precedence on collision. -/
theorem buildTags_union_instrument_precedence (st : CsvReporterState)
    (commonTags instrumentTags : TagMap) (k : String)
    (h : st.tags = some commonTags) :
    CsvMetricReporter.buildTags st instrumentTags
        = Except.ok (buildTagsObj commonTags instrumentTags)
      ∧ objGet (buildTagsObj commonTags instrumentTags) k
        = (findLast instrumentTags k).or (findLast commonTags k) := by
  constructor
  · unfold CsvMetricReporter.buildTags
    rw [h]
  · exact objGet_buildTagsObj commonTags instrumentTags k

/-- Witness for C4 at a concrete reporter: common tags
`env=prod`, instrument tags `env=dev, region=us`; the instrument's `env`
wins. -/
theorem buildTags_union_instrument_precedence_witness :
    CsvMetricReporter.buildTags
        (CsvMetricReporter.setTags (CsvMetricReporter.construct {})
          [("env", "prod")])
        [("env", "dev"), ("region", "us")]
      = Except.ok (buildTagsObj [("env", "prod")] [("env", "dev"), ("region", "us")])
    ∧ objGet (buildTagsObj [("env", "prod")] [("env", "dev"), ("region", "us")]) "env"
      = (findLast [("env", "dev"), ("region", "us")] "env").or
          (findLast [("env", "prod")] "env") :=
  buildTags_union_instrument_precedence
    (CsvMetricReporter.setTags (CsvMetricReporter.construct {}) [("env", "prod")])
    [("env", "prod")] [("env", "dev"), ("region", "us")] "env" rfl

/-- C9: whatever tags map is passed to the `CsvMetricReporter`
constructor, the constructed state holds no reporter-level tags
(`getTags()` is undefined) until `setTags` is called — the constructor
drops its `tags` parameter (the storing assignment is commented out) —
and any `buildTags` call before `setTags` faults with a TypeError instead
of merging the supplied common tags; after `setTags` the stored map is
returned. -/
theorem construct_never_stores_tags (opts : CsvMetricReporterOptions)
    (tagsParam : TagMap) (minReportingTimeout : Int)
    (instrumentTags newTags : TagMap) :
    (CsvMetricReporter.construct opts tagsParam minReportingTimeout).tags = none
    ∧ CsvMetricReporter.getTags
        (CsvMetricReporter.construct opts tagsParam minReportingTimeout) = none
    ∧ CsvMetricReporter.buildTags
        (CsvMetricReporter.construct opts tagsParam minReportingTimeout)
        instrumentTags
      = Except.error ("TypeError: this.tags is undefined")
    ∧ CsvMetricReporter.getTags
        (CsvMetricReporter.setTags
          (CsvMetricReporter.construct opts tagsParam minReportingTimeout)
          newTags)
      = some newTags :=
  ⟨rfl, rfl, rfl, rfl⟩

/-! ## Claim theorems: dedup/timeout policy -/

/-- C3: the unit mismatch is real.  The constructor's default for
`minReportingTimeout` — documented as a "timeout in minutes" — is the
bare number `1`, and `hasChanged` adds that number directly to
`entry.lastReport` (a `Date.getTime()` millisecond timestamp) and
compares the sum against the tick time in milliseconds: under the default
configuration a metric whose value did not change is re-reported a mere
2 milliseconds after its last report, although not even one of the
documented minutes (60000 ms) has elapsed. -/
theorem minReportingTimeout_unit_mismatch (opts : CsvMetricReporterOptions)
    (t v metricId : Int) :
    (CsvMetricReporter.construct opts).minReportingTimeout = 1
    ∧ (CsvMetricReporter.hasChanged
        (CsvMetricReporter.construct opts).minReportingTimeout
        (MetricStates.empty.set metricId { lastReport := t, lastValue := v })
        metricId v (t + 2)).1 = true
    ∧ (t + 2) - t < 60000 := by
  refine ⟨rfl, ?_, by omega⟩
  unfold CsvMetricReporter.hasChanged
  have hs : (MetricStates.empty.set metricId { lastReport := t, lastValue := v }) metricId
      = some { lastReport := t, lastValue := v } := by
    simp [MetricStates.set]
  rw [hs]
  have hT : (CsvMetricReporter.construct opts).minReportingTimeout = 1 := rfl
  have hlt : t + 1 < t + 2 := by omega
  simp [hT, hlt]

/-- C1 counterexample: an entry for metric id 1 exists with
`lastReport = 10` and `lastValue = 5`; at tick time `now = 13` the current
value is still `5` and the elapsed time `13 - 10 = 3` is at least
`minReportingTimeout = 3` — the claim requires the metric to be reported,
but `hasChanged` returns `false` (the source comparison
`lastReport + minReportingTimeout < now` is strict). -/
theorem hasChanged_exact_timeout_counterexample :
    ((MetricStates.empty.set 1 { lastReport := 10, lastValue := 5 }) 1
        = some { lastReport := 10, lastValue := 5 })
    ∧ ((13 : Int) - 10 ≥ 3)
    ∧ (CsvMetricReporter.hasChanged 3
        (MetricStates.empty.set 1 { lastReport := 10, lastValue := 5 })
        1 5 13).1 = false := by
  refine ⟨by decide, by decide, by decide⟩

/-- C1 amended: for every metric id evaluated against the dedup state, if
no `MetricEntry` exists for it the metric is reported and an entry is
created (recording the tick time and the reported value); otherwise the
metric is reported if and only if its current value differs from the
entry's `lastValue`, or the time elapsed since the entry's `lastReport`
strictly exceeds `minReportingTimeout`
(`lastReport + minReportingTimeout < now`). -/
theorem hasChanged_dedup_policy (minReportingTimeout v nowMs metricId : Int)
    (states : MetricStates) :
    (states metricId = none →
      CsvMetricReporter.hasChanged minReportingTimeout states metricId v nowMs
        = (true, states.set metricId { lastReport := nowMs, lastValue := v }))
    ∧ ∀ e : MetricEntry, states metricId = some e →
        ((CsvMetricReporter.hasChanged minReportingTimeout states metricId v
            nowMs).1 = true
          ↔ (e.lastValue ≠ v ∨ e.lastReport + minReportingTimeout < nowMs)) := by
  constructor
  · intro h
    unfold CsvMetricReporter.hasChanged
    rw [h]
  · intro e h
    unfold CsvMetricReporter.hasChanged
    rw [h]
    by_cases hv : e.lastValue = v
    · by_cases ht : e.lastReport + minReportingTimeout < nowMs
      · simp [hv, ht]
      · simp [hv, ht]
    · simp [hv]

/-- Witness for C1: a fresh metric is reported and tracked; a tracked
metric with unchanged value is reported once the timeout is strictly
exceeded. -/
theorem hasChanged_dedup_policy_witness :
    CsvMetricReporter.hasChanged 3 MetricStates.empty 1 5 13
        = (true, MetricStates.empty.set 1 { lastReport := 13, lastValue := 5 })
    ∧ (CsvMetricReporter.hasChanged 3
        (MetricStates.empty.set 1 { lastReport := 10, lastValue := 5 })
        1 5 14).1 = true := by
  refine ⟨(hasChanged_dedup_policy 3 5 13 1 MetricStates.empty).1 rfl, ?_⟩
  exact ((hasChanged_dedup_policy 3 5 14 1
      (MetricStates.empty.set 1 { lastReport := 10, lastValue := 5 })).2
    { lastReport := 10, lastValue := 5 } (by decide)).mpr (Or.inr (by decide))

/-- C2: evaluating the code at the failing input.  The entry for metric
id 1 was created with value `5`; a report of the changed value `7` at
`now = 10` is accepted (`hasChanged` returns `true`), `lastReport` is
updated to `10`, but `lastValue` stays `5` — it is not set to the value
just reported, although the source's own `MetricEntry` documentation
calls it the "value that got reported as latest". -/
theorem hasChanged_lastValue_not_updated :
    (CsvMetricReporter.hasChanged 60000
        (MetricStates.empty.set 1 { lastReport := 0, lastValue := 5 })
        1 7 10).1 = true
    ∧ (CsvMetricReporter.hasChanged 60000
        (MetricStates.empty.set 1 { lastReport := 0, lastValue := 5 })
        1 7 10).2 1
      = some { lastReport := 10, lastValue := 5 } := by
  refine ⟨by decide, by decide⟩

/-! ## Claim theorems: one captured now per tick -/

/-- Frame property of one `hasChanged` call: every slot of the state map
is either unchanged or holds an entry whose `lastReport` is the tick time
passed in. -/
theorem hasChanged_snd_cases (minReportingTimeout : Int)
    (states : MetricStates) (metricId v nowMs j : Int) :
    (CsvMetricReporter.hasChanged minReportingTimeout states metricId v
        nowMs).2 j = states j
    ∨ ∃ e : MetricEntry,
        (CsvMetricReporter.hasChanged minReportingTimeout states metricId v
          nowMs).2 j = some e ∧ e.lastReport = nowMs := by
  unfold CsvMetricReporter.hasChanged
  cases hs : states metricId with
  | none =>
      by_cases hj : j = metricId
      · right
        refine ⟨{ lastReport := nowMs, lastValue := v }, ?_, rfl⟩
        simp [MetricStates.set, hj]
      · left
        simp [MetricStates.set, hj]
  | some e =>
      by_cases hc : ((e.lastValue != v)
          || decide (e.lastReport + minReportingTimeout < nowMs)) = true
      · by_cases hj : j = metricId
        · right
          refine ⟨{ e with lastReport := nowMs }, ?_, rfl⟩
          simp [hc, MetricStates.set, hj]
        · left
          simp [hc, MetricStates.set, hj]
      · by_cases hj : j = metricId
        · left
          simp only [Bool.not_eq_true] at hc
          simp [hc, MetricStates.set, hj, hs]
        · left
          simp only [Bool.not_eq_true] at hc
          simp [hc, MetricStates.set, hj]

/-- Frame property of a whole `reportMetrics` pass, by induction over the
instrument list. -/
theorem reportMetrics_snd_cases (minReportingTimeout : Int)
    (metrics : List MetricInfo) (nowMs : Int) (states : MetricStates)
    (j : Int) :
    (CsvMetricReporter.reportMetrics minReportingTimeout metrics nowMs
        states) j = states j
    ∨ ∃ e : MetricEntry,
        (CsvMetricReporter.reportMetrics minReportingTimeout metrics nowMs
          states) j = some e ∧ e.lastReport = nowMs := by
  induction metrics generalizing states with
  | nil => left; rfl
  | cons m rest ih =>
      have hcons : CsvMetricReporter.reportMetrics minReportingTimeout
          (m :: rest) nowMs states
        = CsvMetricReporter.reportMetrics minReportingTimeout rest nowMs
            (if jsTruthyId m.id then
              (CsvMetricReporter.hasChanged minReportingTimeout states
                (m.id.getD 0) m.value nowMs).2
            else states) := rfl
      rw [hcons]
      by_cases hid : jsTruthyId m.id = true
      · rw [if_pos hid]
        rcases ih ((CsvMetricReporter.hasChanged minReportingTimeout states
            (m.id.getD 0) m.value nowMs).2) with h1 | h1
        · rw [h1]
          exact hasChanged_snd_cases minReportingTimeout states (m.id.getD 0)
            m.value nowMs j
        · right; exact h1
      · rw [if_neg hid]
        exact ih states

/-- `reportMetrics` over a concatenation is the sequential composition of
the two passes (same tick time, threaded state). -/
theorem reportMetrics_append (minReportingTimeout : Int)
    (a b : List MetricInfo) (nowMs : Int) (states : MetricStates) :
    CsvMetricReporter.reportMetrics minReportingTimeout (a ++ b) nowMs states
      = CsvMetricReporter.reportMetrics minReportingTimeout b nowMs
          (CsvMetricReporter.reportMetrics minReportingTimeout a nowMs
            states) := by
  unfold CsvMetricReporter.reportMetrics
  exact List.foldl_append _ states a b

/-- One registry's pass is evaluated against its single captured `now`:
the six per-variant passes of `reportMetricRegistry` equal one uniform
pass over all the registry's instruments with the same captured
timestamp, and every dedup entry the pass touches records exactly that
timestamp (every slot of the resulting state map is either untouched or
carries `lastReport = clockMs`). -/
theorem reportMetricRegistry_uniform_now (minReportingTimeout clockMs : Int)
    (registry : CsvRegistry) (states : MetricStates) :
    CsvMetricReporter.reportMetricRegistry minReportingTimeout clockMs
        registry states
      = CsvMetricReporter.reportMetrics minReportingTimeout
          registry.allMetrics clockMs states
    ∧ ∀ j : Int,
        (CsvMetricReporter.reportMetricRegistry minReportingTimeout clockMs
            registry states) j = states j
        ∨ ∃ e : MetricEntry,
            (CsvMetricReporter.reportMetricRegistry minReportingTimeout
              clockMs registry states) j = some e ∧ e.lastReport = clockMs := by
  have heq : CsvMetricReporter.reportMetricRegistry minReportingTimeout
      clockMs registry states
    = CsvMetricReporter.reportMetrics minReportingTimeout
        registry.allMetrics clockMs states := by
    unfold CsvMetricReporter.reportMetricRegistry CsvRegistry.allMetrics
    rw [reportMetrics_append, reportMetrics_append, reportMetrics_append,
      reportMetrics_append, reportMetrics_append]
  refine ⟨heq, fun j => ?_⟩
  rw [heq]
  exact reportMetrics_snd_cases minReportingTimeout registry.allMetrics
    clockMs states j

/-- C7 counterexample: one `report()` tick over two registered
registries, against a clock whose consecutive reads return 100 and
105 ms.  The tick samples the clock once per registry (part_001 lines
209 and 277), so the metric of the first registry is evaluated and
recorded against `now = 100` while the metric of the second registry —
in the same tick's batch — is evaluated and recorded against
`now = 105`: two dedup-timeout comparisons of one tick used different
`now` values, refuting the claim that all instruments of every
registered registry share a single captured `now`. -/
theorem report_two_clock_samples_counterexample :
    (CsvMetricReporter.report 60000 (fun i => if i = 0 then 100 else 105)
        [{ counters := [{ id := some 1, value := 5 }] },
          { counters := [{ id := some 2, value := 7 }] }]
        MetricStates.empty) 1
      = some { lastReport := 100, lastValue := 5 }
    ∧ (CsvMetricReporter.report 60000 (fun i => if i = 0 then 100 else 105)
        [{ counters := [{ id := some 1, value := 5 }] },
          { counters := [{ id := some 2, value := 7 }] }]
        MetricStates.empty) 2
      = some { lastReport := 105, lastValue := 7 }
    ∧ (100 : Int) ≠ 105 := by
  refine ⟨by decide, by decide, by decide⟩

/-- C7 amended: within one reporter tick, the clock is sampled once per
registered registry, not once per tick: the tick over `registry :: rest`
evaluates `registry` wholly against the first clock sample and continues
with the later samples for the remaining registries.  Within one
registry, every instrument of all six variant lists is evaluated against
that registry's single captured `now`: the six per-variant passes equal
one uniform pass over the registry's instruments with that timestamp,
and every dedup entry the registry's pass touches records exactly that
timestamp. -/
theorem report_per_registry_single_now (minReportingTimeout : Int)
    (clock : Nat → Int) (registry : CsvRegistry) (rest : List CsvRegistry)
    (clockMs : Int) (states : MetricStates) :
    CsvMetricReporter.report minReportingTimeout clock (registry :: rest)
        states
      = CsvMetricReporter.reportGo minReportingTimeout clock 1 rest
          (CsvMetricReporter.reportMetricRegistry minReportingTimeout
            (clock 0) registry states)
    ∧ CsvMetricReporter.reportMetricRegistry minReportingTimeout clockMs
        registry states
      = CsvMetricReporter.reportMetrics minReportingTimeout
          registry.allMetrics clockMs states
    ∧ ∀ j : Int,
        (CsvMetricReporter.reportMetricRegistry minReportingTimeout clockMs
            registry states) j = states j
        ∨ ∃ e : MetricEntry,
            (CsvMetricReporter.reportMetricRegistry minReportingTimeout
              clockMs registry states) j = some e ∧ e.lastReport = clockMs := by
  refine ⟨rfl, ?_, ?_⟩
  · exact (reportMetricRegistry_uniform_now minReportingTimeout clockMs
      registry states).1
  · exact (reportMetricRegistry_uniform_now minReportingTimeout clockMs
      registry states).2

/-! ## Claim theorems: start/stop timer lifecycle -/

/-- A freshly constructed reporter (no registries added). -/
def cexCsvState : CsvReporterState := CsvMetricReporter.construct {}

/-- The reporter state after the first `start()`. -/
def cexCsvStarted : CsvReporterState := { cexCsvState with timer := some 0 }

/-- The timer runtime after the first `start()`: one armed interval. -/
def cexWorldStarted : SchedWorld :=
  { armed := [{ timerId := 0, intervalMs := 1000, unreffed := false }],
    nextId := 1 }

/-- C6 counterexample: after `start()` and then `stop()`, the armed
interval timer still fires future ticks (`stop` only unrefs it; nothing
clears the interval) — contradicting "stop() disarms the timer so no
future ticks fire"; and a second `start()` while running arms a second
recurring timer instead of being a no-op. -/
theorem csv_stop_unref_counterexample :
    CsvMetricReporter.start cexCsvState {} = Except.ok (cexCsvStarted, cexWorldStarted)
    ∧ SchedWorld.firesFutureTicks
        (CsvMetricReporter.stop cexCsvStarted cexWorldStarted) = true
    ∧ (CsvMetricReporter.start cexCsvStarted cexWorldStarted).map
        (fun p => p.2.armed.length) = Except.ok 2 := by
  refine ⟨rfl, rfl, rfl⟩

/-- C6 amended: `start()` computes the tick interval in milliseconds,
performs the header construction when registries are registered, and arms
a fresh recurring timer on **every** call, storing its handle — so a
second `start()` while running arms an additional timer rather than being
a no-op; `stop()` only calls `unref()` on the stored timer, which cancels
nothing (the armed timer set keeps exactly the same timers, so ticks keep
firing while the process runs); `stop()` with no stored timer is a no-op
and raises no error. -/
theorem csv_start_stop_semantics (st : CsvReporterState) (w : SchedWorld) :
    (st.metricRegistries = [] →
      CsvMetricReporter.start st w = Except.ok
        ({ st with timer := some w.nextId },
          { armed := w.armed ++
              [{ timerId := w.nextId,
                 intervalMs := st.options.unit.convertTo st.options.interval MILLISECOND,
                 unreffed := false }],
            nextId := w.nextId + 1 }))
    ∧ (∀ hdr, st.metricRegistries ≠ [] →
        CsvMetricReporter.buildHeaders st = Except.ok hdr →
        CsvMetricReporter.start st w = Except.ok
          ({ st with header := some hdr, timer := some w.nextId },
            { armed := w.armed ++
                [{ timerId := w.nextId,
                   intervalMs := st.options.unit.convertTo st.options.interval MILLISECOND,
                   unreffed := false }],
              nextId := w.nextId + 1 }))
    ∧ ((CsvMetricReporter.stop st w).armed.map (fun a => a.timerId)
        = w.armed.map (fun a => a.timerId))
    ∧ (st.timer = none → CsvMetricReporter.stop st w = w) := by
  refine ⟨?_, ?_, ?_, ?_⟩
  · intro h
    unfold CsvMetricReporter.start
    rw [h]
    rfl
  · intro hdr hne hok
    unfold CsvMetricReporter.start
    cases hreg : st.metricRegistries with
    | nil => exact absurd hreg hne
    | cons r rs =>
        rw [hok]
        rfl
  · cases ht : st.timer with
    | none => simp [CsvMetricReporter.stop, ht]
    | some tid =>
        simp only [CsvMetricReporter.stop, ht, SchedWorld.unrefTimer,
          List.map_map]
        apply List.map_congr_left
        intro a _
        by_cases hA : a.timerId = tid <;> simp [Function.comp, hA]
  · intro h
    unfold CsvMetricReporter.stop
    rw [h]

/-- A reporter with one (empty) registry and two plain columns
configured. -/
def witCsvStateB : CsvReporterState :=
  { options := { columns := [ColumnType.date, ColumnType.value] },
    metricRegistries := [{}] }

/-- Witness for C6 at concrete reporters: `start` with a registry builds
the header `date, value` and arms timer 0; `start` without registries
arms a timer without touching the header; `stop` before any `start` is a
no-op. -/
theorem csv_start_stop_semantics_witness :
    CsvMetricReporter.start witCsvStateB {} = Except.ok
      ({ witCsvStateB with header := some ["date", "value"], timer := some 0 },
        { armed := [{ timerId := 0, intervalMs := 1000, unreffed := false }],
          nextId := 1 })
    ∧ CsvMetricReporter.start (CsvMetricReporter.construct {}) {} = Except.ok
      ({ CsvMetricReporter.construct {} with timer := some 0 },
        { armed := [{ timerId := 0, intervalMs := 1000, unreffed := false }],
          nextId := 1 })
    ∧ CsvMetricReporter.stop (CsvMetricReporter.construct {}) {} = ({} : SchedWorld) := by
  refine ⟨?_, ?_, ?_⟩
  · exact (csv_start_stop_semantics witCsvStateB {}).2.1 ["date", "value"]
      (by decide) rfl
  · exact (csv_start_stop_semantics (CsvMetricReporter.construct {}) {}).1 rfl
  · exact (csv_start_stop_semantics (CsvMetricReporter.construct {}) {}).2.2.2 rfl

/-! ## Claim theorems: not-a-number filtering -/

/-- C5: an instrument whose numeric value is not-a-number at tick time
produces no report on that tick — `reportCounter`/`reportGauge` yield no
log line — and in the collected batch it behaves exactly like a filtered
element: the batch over a list containing the NaN instrument equals the
batch over the list without it, so the remaining instruments are still
reported and the tick does not fail. -/
theorem nan_value_filtered_not_failure (commonTags : TagMap)
    (ctx : LoggerCtx) (c : LoggerCounterModel) (g : LoggerGaugeModel)
    (pre post : List LoggerCounterModel)
    (hc : c.count = JsNum.nan) (hg : g.value = JsNum.nan) :
    LoggerReporter.reportCounter commonTags c ctx = none
    ∧ LoggerReporter.reportGauge commonTags g ctx = none
    ∧ collectCounterResults commonTags ctx (pre ++ c :: post)
        = collectCounterResults commonTags ctx (pre ++ post) := by
  have hcnone : LoggerReporter.reportCounter commonTags c ctx = none := by
    unfold LoggerReporter.reportCounter
    rw [hc]
    rfl
  have hgnone : LoggerReporter.reportGauge commonTags g ctx = none := by
    unfold LoggerReporter.reportGauge
    rw [hg]
    rfl
  refine ⟨hcnone, hgnone, ?_⟩
  unfold collectCounterResults
  rw [List.filterMap_append, List.filterMap_append]
  have hcons : List.filterMap
      (fun m => (LoggerReporter.reportCounter commonTags m ctx).map
        (fun r => (m, r))) (c :: post)
    = List.filterMap
        (fun m => (LoggerReporter.reportCounter commonTags m ctx).map
          (fun r => (m, r))) post := by
    rw [List.filterMap_cons]
    rw [hcnone]
    rfl
  rw [hcons]

/-- Witness for C5: a NaN counter between two healthy counters
contributes nothing, and the healthy ones are still collected. -/
theorem nan_value_filtered_not_failure_witness :
    LoggerReporter.reportCounter []
        { name := "a", group := "", count := JsNum.nan }
        { date := 0, logMetadata := {} } = none
    ∧ LoggerReporter.reportGauge []
        { name := "b", group := "", value := JsNum.nan }
        { date := 0, logMetadata := {} } = none
    ∧ collectCounterResults [] { date := 0, logMetadata := {} }
        ([{ name := "x", group := "", count := JsNum.val 5 }]
          ++ { name := "a", group := "", count := JsNum.nan }
            :: [{ name := "y", group := "", count := JsNum.val 7 }])
      = collectCounterResults [] { date := 0, logMetadata := {} }
          ([{ name := "x", group := "", count := JsNum.val 5 }]
            ++ [{ name := "y", group := "", count := JsNum.val 7 }]) :=
  nan_value_filtered_not_failure []
    { date := 0, logMetadata := {} }
    { name := "a", group := "", count := JsNum.nan }
    { name := "b", group := "", value := JsNum.nan }
    [{ name := "x", group := "", count := JsNum.val 5 }]
    [{ name := "y", group := "", count := JsNum.val 7 }]
    rfl rfl

/-! ## Claim theorems: interprocess wire shape -/

/-- C8: every interprocess report message is exactly its wire shape —
the six components `ctx`, `date`, `tags`, `metrics`, `targetReporterType`
and `type`, with `metrics` consisting of exactly the six per-variant
result lists — and the `type` tag is what distinguishes the message for a
consumer: it is accepted precisely when its `type` matches the expected
message type. -/
theorem interprocess_message_wire_shape {Ctx Dt M T : Type}
    (m : InterprocessReportMessage Ctx Dt M T) (expectedType : String) :
    m = { ctx := m.ctx, date := m.date, tags := m.tags,
          metrics := { counters := m.metrics.counters,
                       gauges := m.metrics.gauges,
                       histograms := m.metrics.histograms,
                       meters := m.metrics.meters,
                       monotoneCounters := m.metrics.monotoneCounters,
                       timers := m.metrics.timers },
          targetReporterType := m.targetReporterType, type := m.type }
    ∧ (acceptReportMessage expectedType m = some m ↔ m.type = expectedType) := by
  constructor
  · rfl
  · unfold acceptReportMessage
    by_cases h : m.type = expectedType
    · simp [h]
    · simp [h]

/-! ## Claim theorems: DefaultSender -/

/-- C10: a freshly constructed sender is not ready; after `init` has
resolved it is ready; `init` calls `createDatabase` — extending the
server's database list by the configured name — exactly when that name is
absent from the list returned by `getDatabaseNames`, and leaves the
server's databases unchanged when the database already exists. -/
theorem defaultSender_init_ready_and_create (config : InfluxConfig)
    (precision : String) (serverDbs : List String) :
    DefaultSender.isReady (DefaultSender.construct config precision) = false
    ∧ DefaultSender.isReady
        ((DefaultSender.construct config precision).init serverDbs).1 = true
    ∧ (config.database ∈ serverDbs →
        ((DefaultSender.construct config precision).init serverDbs).2
          = serverDbs)
    ∧ (config.database ∉ serverDbs →
        ((DefaultSender.construct config precision).init serverDbs).2
          = serverDbs ++ [config.database]) := by
  refine ⟨rfl, rfl, ?_, ?_⟩
  · intro hmem
    have hlisted : dbNameListed serverDbs config.database = true := by
      unfold dbNameListed
      rw [List.any_eq_true]
      exact ⟨config.database, hmem, by simp⟩
    have hcfg : (DefaultSender.construct config precision).config = config := rfl
    unfold DefaultSender.init
    rw [hcfg]
    simp [hlisted]
  · intro hmem
    have hlisted : dbNameListed serverDbs config.database = false := by
      unfold dbNameListed
      rw [Bool.eq_false_iff]
      intro hany
      rw [List.any_eq_true] at hany
      rcases hany with ⟨x, hx, hxe⟩
      simp at hxe
      exact hmem (hxe ▸ hx)
    have hcfg : (DefaultSender.construct config precision).config = config := rfl
    unfold DefaultSender.init
    rw [hcfg]
    simp [hlisted]

/-- Witness for C10: with the database `metrics` already listed, `init`
creates nothing; with it absent, `init` creates it; either way the sender
turns ready. -/
theorem defaultSender_init_ready_and_create_witness :
    DefaultSender.isReady
        (DefaultSender.construct { database := "metrics" } "s") = false
    ∧ DefaultSender.isReady
        ((DefaultSender.construct { database := "metrics" } "s").init
          ["metrics"]).1 = true
    ∧ ((DefaultSender.construct { database := "metrics" } "s").init
        ["metrics"]).2 = ["metrics"]
    ∧ ((DefaultSender.construct { database := "metrics" } "s").init
        ["other"]).2 = ["other", "metrics"] := by
  refine ⟨(defaultSender_init_ready_and_create { database := "metrics" } "s"
      ["metrics"]).1,
    (defaultSender_init_ready_and_create { database := "metrics" } "s"
      ["metrics"]).2.1,
    (defaultSender_init_ready_and_create { database := "metrics" } "s"
      ["metrics"]).2.2.1 (by decide), ?_⟩
  exact (defaultSender_init_ready_and_create { database := "metrics" } "s"
    ["other"]).2.2.2 (by decide)
